import Mathlib

/-!
Shallow embedding of the credential-authentication and session-security
subsystem of the Matrica Networks company website backend
(src/backend/auth.py and src/backend/middleware.py), together with proofs
of the specification's claims about it.

Modelling conventions:
* `datetime.now()` is an explicit `now : Nat` parameter, measured in minutes
  (the smallest unit the code compares: lockout durations are in minutes and
  session expiry in hours).
* sqlite tables become Lean lists of records; SQL `SELECT ... WHERE` with
  `fetchone` becomes `List.find?`, `UPDATE ... WHERE` becomes `List.map`
  guarded by the row predicate, `DELETE` becomes `List.filter`.
* bytes values (password hashes, salts) are `List Nat` with every entry
  `< 256`.
* nondeterministic inputs of the source (`secrets.token_bytes`,
  `secrets.token_urlsafe`) are passed in as explicit parameters.
-/

/-! ## SecurityConfig (auth.py lines 21-44) -/

namespace SecurityConfig

def HASH_ITERATIONS : Nat := 100000

def SALT_LENGTH : Nat := 32

def SESSION_TOKEN_LENGTH : Nat := 64

def SESSION_EXPIRY_HOURS : Nat := 8

def SESSION_REMEMBER_HOURS : Nat := 168

def MAX_LOGIN_ATTEMPTS : Nat := 5

def LOCKOUT_DURATION_MINUTES : Nat := 15

end SecurityConfig

/-! ## RateLimiter (auth.py lines 46-145)

The `rate_limits` table keyed by `identifier` (its PRIMARY KEY) becomes an
association list. -/

structure RLRec where
  attempts : Nat
  first_attempt : Option Nat
  last_attempt : Option Nat
  locked_until : Option Nat
deriving DecidableEq, Repr

abbrev RLState := List (String × RLRec)

def rlLookup (st : RLState) (identifier : String) : Option RLRec :=
  (st.find? (fun p => p.1 == identifier)).map Prod.snd

def rlUpdate (st : RLState) (identifier : String) (r : RLRec) : RLState :=
  st.map (fun p => if p.1 == identifier then (p.1, r) else p)

def rlDelete (st : RLState) (identifier : String) : RLState :=
  st.filter (fun p => !(p.1 == identifier))

def rlInsert (st : RLState) (identifier : String) (r : RLRec) : RLState :=
  st ++ [(identifier, r)]

/-- Result shape of `RateLimiter.check_rate_limit` (a Python dict whose
optional keys become `Option` fields). -/
structure RLCheck where
  allowed : Bool
  attempts : Nat
  locked_until : Option Nat := none
  time_remaining_minutes : Option Nat := none
deriving DecidableEq, Repr

/-- auth.py lines 79-112.  A lockout is active iff `locked_until > now`;
an elapsed lockout resets the stored counter as a side effect. -/
def check_rate_limit (st : RLState) (identifier : String) (now : Nat) :
    RLCheck × RLState :=
  match rlLookup st identifier with
  | none => ({ allowed := true, attempts := 0 }, st)
  | some r =>
    match r.locked_until with
    | some t =>
      if now < t then
        ({ allowed := false, attempts := r.attempts, locked_until := some t,
           time_remaining_minutes := some (t - now) }, st)
      else
        ({ allowed := true, attempts := 0 },
         rlUpdate st identifier
           { attempts := 0, first_attempt := none, last_attempt := none,
             locked_until := none })
    | none =>
      ({ allowed := decide (r.attempts < SecurityConfig.MAX_LOGIN_ATTEMPTS),
         attempts := r.attempts }, st)

/-- auth.py lines 114-145. -/
def record_attempt (st : RLState) (identifier : String) (now : Nat)
    (success : Bool) : RLState :=
  if success then
    rlDelete st identifier
  else
    match rlLookup st identifier with
    | some r =>
      let new_attempts := r.attempts + 1
      let locked_until :=
        if SecurityConfig.MAX_LOGIN_ATTEMPTS ≤ new_attempts then
          some (now + SecurityConfig.LOCKOUT_DURATION_MINUTES)
        else none
      rlUpdate st identifier
        { attempts := new_attempts, first_attempt := r.first_attempt,
          last_attempt := some now, locked_until := locked_until }
    | none =>
      rlInsert st identifier
        { attempts := 1, first_attempt := some now, last_attempt := some now,
          locked_until := none }

/-- A sequence of failed attempts recorded at the given instants. -/
def recordFails (st : RLState) (identifier : String) (ts : List Nat) : RLState :=
  ts.foldl (fun s t => record_attempt s identifier t false) st

/-! ### Association-list lemmas for the rate-limit store -/

theorem rlLookup_insert_self (st : RLState) (identifier : String) (r : RLRec)
    (h : rlLookup st identifier = none) :
    rlLookup (rlInsert st identifier r) identifier = some r := by
  induction st with
  | nil => simp [rlLookup, rlInsert]
  | cons p rest ih =>
    simp only [rlLookup, rlInsert, List.cons_append, List.find?_cons] at *
    cases hb : (p.1 == identifier) with
    | true => simp [hb] at h
    | false => simp only [hb] at h ⊢; exact ih h

theorem rlLookup_update_self (st : RLState) (identifier : String)
    (r0 r : RLRec) (h : rlLookup st identifier = some r0) :
    rlLookup (rlUpdate st identifier r) identifier = some r := by
  induction st with
  | nil => simp [rlLookup] at h
  | cons p rest ih =>
    simp only [rlLookup, rlUpdate, List.map_cons, List.find?_cons] at *
    cases hb : (p.1 == identifier) with
    | true => simp [hb]
    | false =>
      simp only [hb, Bool.false_eq_true, if_false] at h ⊢
      exact ih h

theorem rlLookup_delete_self (st : RLState) (identifier : String) :
    rlLookup (rlDelete st identifier) identifier = none := by
  simp only [rlLookup, rlDelete, Option.map_eq_none', List.find?_eq_none,
    List.mem_filter]
  intro x hx
  simpa using hx.2

theorem record_attempt_fail_of_none (st : RLState) (identifier : String)
    (t : Nat) (h : rlLookup st identifier = none) :
    record_attempt st identifier t false =
      rlInsert st identifier
        { attempts := 1, first_attempt := some t, last_attempt := some t,
          locked_until := none } := by
  simp [record_attempt, h]

theorem record_attempt_fail_of_some (st : RLState) (identifier : String)
    (t : Nat) (r : RLRec) (h : rlLookup st identifier = some r) :
    record_attempt st identifier t false =
      rlUpdate st identifier
        { attempts := r.attempts + 1, first_attempt := r.first_attempt,
          last_attempt := some t,
          locked_until :=
            if SecurityConfig.MAX_LOGIN_ATTEMPTS ≤ r.attempts + 1 then
              some (t + SecurityConfig.LOCKOUT_DURATION_MINUTES)
            else none } := by
  simp [record_attempt, h]

/-- After five consecutive failed attempts starting from no record, the
stored counter is exactly `attempts = 5` with `locked_until = t5 + 15`. -/
theorem recordFails_five (st : RLState) (identifier : String)
    (t1 t2 t3 t4 t5 : Nat) (h : rlLookup st identifier = none) :
    rlLookup (recordFails st identifier [t1, t2, t3, t4, t5]) identifier =
      some { attempts := 5, first_attempt := some t1, last_attempt := some t5,
             locked_until :=
               some (t5 + SecurityConfig.LOCKOUT_DURATION_MINUTES) } := by
  simp only [recordFails, List.foldl_cons, List.foldl_nil]
  rw [record_attempt_fail_of_none _ _ _ h]
  have h1 := rlLookup_insert_self st identifier
    { attempts := 1, first_attempt := some t1, last_attempt := some t1,
      locked_until := none } h
  rw [record_attempt_fail_of_some _ _ _ _ h1]
  have h2 := rlLookup_update_self _ identifier _
    { attempts := 2, first_attempt := some t1, last_attempt := some t2,
      locked_until := none } h1
  simp only [SecurityConfig.MAX_LOGIN_ATTEMPTS] at h2 ⊢
  norm_num at h2 ⊢
  rw [record_attempt_fail_of_some _ _ _ _ h2]
  have h3 := rlLookup_update_self _ identifier _
    { attempts := 3, first_attempt := some t1, last_attempt := some t3,
      locked_until := none } h2
  simp only [SecurityConfig.MAX_LOGIN_ATTEMPTS] at h3 ⊢
  norm_num at h3 ⊢
  rw [record_attempt_fail_of_some _ _ _ _ h3]
  have h4 := rlLookup_update_self _ identifier _
    { attempts := 4, first_attempt := some t1, last_attempt := some t4,
      locked_until := none } h3
  simp only [SecurityConfig.MAX_LOGIN_ATTEMPTS] at h4 ⊢
  norm_num at h4 ⊢
  rw [record_attempt_fail_of_some _ _ _ _ h4]
  have h5 := rlLookup_update_self _ identifier _
    { attempts := 5, first_attempt := some t1, last_attempt := some t5,
      locked_until :=
        some (t5 + SecurityConfig.LOCKOUT_DURATION_MINUTES) } h4
  simp only [SecurityConfig.MAX_LOGIN_ATTEMPTS] at h5 ⊢
  norm_num at h5 ⊢
  exact h5

/-- **C2.** For every identifier starting from no rate-limit record, after
exactly `MAX_LOGIN_ATTEMPTS = 5` consecutive failed `record_attempt` calls,
`check_rate_limit` returns `allowed = false` with `locked_until` strictly in
the future (namely `t5 + LOCKOUT_DURATION_MINUTES`); and at any time after
that instant has passed, `check_rate_limit` returns `allowed = true` and
resets the stored attempts to 0. -/
theorem C2_lockout_after_five_failures (st : RLState) (identifier : String)
    (t1 t2 t3 t4 t5 : Nat) (h : rlLookup st identifier = none) :
    (∀ now, now < t5 + SecurityConfig.LOCKOUT_DURATION_MINUTES →
      (check_rate_limit (recordFails st identifier [t1, t2, t3, t4, t5])
          identifier now).1.allowed = false ∧
      (check_rate_limit (recordFails st identifier [t1, t2, t3, t4, t5])
          identifier now).1.locked_until =
        some (t5 + SecurityConfig.LOCKOUT_DURATION_MINUTES)) ∧
    (∀ now, t5 + SecurityConfig.LOCKOUT_DURATION_MINUTES < now →
      (check_rate_limit (recordFails st identifier [t1, t2, t3, t4, t5])
          identifier now).1.allowed = true ∧
      rlLookup (check_rate_limit (recordFails st identifier [t1, t2, t3, t4, t5])
          identifier now).2 identifier =
        some { attempts := 0, first_attempt := none, last_attempt := none,
               locked_until := none }) := by
  have h5 := recordFails_five st identifier t1 t2 t3 t4 t5 h
  constructor
  · intro now hnow
    simp [check_rate_limit, h5, hnow]
  · intro now hnow
    have hge : ¬ now < t5 + SecurityConfig.LOCKOUT_DURATION_MINUTES :=
      Nat.not_lt.mpr (Nat.le_of_lt hnow)
    constructor
    · simp [check_rate_limit, h5, hge]
    · simp only [check_rate_limit, h5, hge, if_false]
      exact rlLookup_update_self _ _ _ _ h5

/-- Witness for C2 at a concrete identifier and concrete attempt times. -/
theorem C2_lockout_after_five_failures_witness :
    ((check_rate_limit (recordFails [] "alice" [1, 2, 3, 4, 5]) "alice"
        10).1.allowed = false ∧
      (check_rate_limit (recordFails [] "alice" [1, 2, 3, 4, 5]) "alice"
        10).1.locked_until = some 20) ∧
    ((check_rate_limit (recordFails [] "alice" [1, 2, 3, 4, 5]) "alice"
        25).1.allowed = true ∧
      rlLookup (check_rate_limit (recordFails [] "alice" [1, 2, 3, 4, 5])
          "alice" 25).2 "alice" =
        some { attempts := 0, first_attempt := none, last_attempt := none,
               locked_until := none }) := by
  have h := C2_lockout_after_five_failures [] "alice" 1 2 3 4 5 (by rfl)
  exact ⟨(h.1 10 (by norm_num [SecurityConfig.LOCKOUT_DURATION_MINUTES])),
         (h.2 25 (by norm_num [SecurityConfig.LOCKOUT_DURATION_MINUTES]))⟩

/-! ### Reachable rate-limiter states (for the store invariant, C9) -/

/-- One rate-limiter operation: the two entry points of the class. -/
inductive RLOp where
  | check (identifier : String) (now : Nat)
  | record (identifier : String) (now : Nat) (success : Bool)

def rlStep (st : RLState) (op : RLOp) : RLState :=
  match op with
  | .check identifier now => (check_rate_limit st identifier now).2
  | .record identifier now success => record_attempt st identifier now success

/-- Every state reachable from the empty store by a sequence of operations. -/
def rlRun (ops : List RLOp) : RLState := ops.foldl rlStep []

/-- The store invariant of the spec: `locked_until` is set only when
`attempts ≥ MAX_LOGIN_ATTEMPTS`. -/
def RLInv (st : RLState) : Prop :=
  ∀ p ∈ st, p.2.locked_until.isSome = true →
    SecurityConfig.MAX_LOGIN_ATTEMPTS ≤ p.2.attempts

theorem rlInv_update (st : RLState) (identifier : String) (r : RLRec)
    (h : RLInv st)
    (hr : r.locked_until.isSome = true →
      SecurityConfig.MAX_LOGIN_ATTEMPTS ≤ r.attempts) :
    RLInv (rlUpdate st identifier r) := by
  intro p hp hsome
  rcases List.mem_map.mp hp with ⟨q, hq, hqe⟩
  by_cases hb : q.1 == identifier
  · rw [if_pos hb] at hqe
    subst hqe; exact hr hsome
  · rw [if_neg hb] at hqe
    subst hqe; exact h q hq hsome

theorem rlInv_step (st : RLState) (op : RLOp) (h : RLInv st) :
    RLInv (rlStep st op) := by
  cases op with
  | check identifier now =>
    simp only [rlStep, check_rate_limit]
    split
    · exact h
    · split
      · split
        · exact h
        · exact rlInv_update st identifier _ h (by intro hs; simp at hs)
      · exact h
  | record identifier now success =>
    cases success with
    | true =>
      simp only [rlStep, record_attempt, if_pos]
      intro p hp
      exact h p (List.mem_of_mem_filter hp)
    | false =>
      simp only [rlStep, record_attempt, Bool.false_eq_true, if_false]
      split
      next r hr =>
        refine rlInv_update st identifier _ h ?_
        intro hs
        simp only at hs ⊢
        by_cases hm : SecurityConfig.MAX_LOGIN_ATTEMPTS ≤ r.attempts + 1
        · exact hm
        · rw [if_neg hm] at hs; simp at hs
      next hr =>
        intro p hp hsome
        rcases List.mem_append.mp hp with hold | hnew
        · exact h p hold hsome
        · simp only [List.mem_singleton] at hnew
          subst hnew; simp at hsome

/-- **C9.** In every rate-limit state reachable from the empty store,
`locked_until` is set only when `attempts ≥ MAX_LOGIN_ATTEMPTS`; a successful
`record_attempt` deletes the counter; and the first `check_rate_limit` after
`locked_until` has elapsed resets the stored attempts to 0 and allows the
identifier.  So the invariant is preserved by every operation. -/
theorem C9_rate_limit_invariant (ops : List RLOp) (st : RLState)
    (identifier : String) (now : Nat) (r : RLRec) (t : Nat)
    (_hreach : st = rlRun ops) (hr : rlLookup st identifier = some r)
    (hl : r.locked_until = some t) (helapsed : t ≤ now) :
    RLInv (rlRun ops) ∧
    (∀ st2 id2 n2, rlLookup (record_attempt st2 id2 n2 true) id2 = none) ∧
    ((check_rate_limit st identifier now).1.allowed = true ∧
      rlLookup (check_rate_limit st identifier now).2 identifier =
        some { attempts := 0, first_attempt := none, last_attempt := none,
               locked_until := none }) := by
  refine ⟨?_, ?_, ?_⟩
  · have : ∀ (l : List RLOp) (st0 : RLState),
        RLInv st0 → RLInv (l.foldl rlStep st0) := by
      intro l
      induction l with
      | nil => intro st0 h0; exact h0
      | cons op rest ih => intro st0 h0; exact ih _ (rlInv_step st0 op h0)
    exact this ops [] (by intro p hp _; simp at hp)
  · intro st2 id2 n2
    simp only [record_attempt, if_pos]
    exact rlLookup_delete_self st2 id2
  · have hge : ¬ now < t := Nat.not_lt.mpr helapsed
    constructor
    · simp [check_rate_limit, hr, hl, hge]
    · simp only [check_rate_limit, hr, hl, hge, if_false]
      exact rlLookup_update_self _ _ _ _ hr

/-- Witness for C9: a concrete locked state reached by five failed attempts,
checked after the lockout has elapsed. -/
theorem C9_rate_limit_invariant_witness :
    RLInv (rlRun [.record "bob" 1 false, .record "bob" 2 false,
        .record "bob" 3 false, .record "bob" 4 false, .record "bob" 5 false]) ∧
    (∀ st2 id2 n2, rlLookup (record_attempt st2 id2 n2 true) id2 = none) ∧
    ((check_rate_limit
        (rlRun [.record "bob" 1 false, .record "bob" 2 false,
          .record "bob" 3 false, .record "bob" 4 false, .record "bob" 5 false])
        "bob" 30).1.allowed = true ∧
      rlLookup (check_rate_limit
          (rlRun [.record "bob" 1 false, .record "bob" 2 false,
            .record "bob" 3 false, .record "bob" 4 false,
            .record "bob" 5 false]) "bob" 30).2 "bob" =
        some { attempts := 0, first_attempt := none, last_attempt := none,
               locked_until := none }) :=
  C9_rate_limit_invariant
    [.record "bob" 1 false, .record "bob" 2 false, .record "bob" 3 false,
     .record "bob" 4 false, .record "bob" 5 false]
    (rlRun [.record "bob" 1 false, .record "bob" 2 false,
      .record "bob" 3 false, .record "bob" 4 false, .record "bob" 5 false])
    "bob" 30
    { attempts := 5, first_attempt := some 1, last_attempt := some 5,
      locked_until := some 20 } 20
    rfl (by rfl) rfl (by norm_num)

/-! ## Password hashing (auth.py lines 316-333)

`AuthService._hash_password` calls `hashlib.pbkdf2_hmac('sha256', password,
salt, 100000)`.  The library primitive is embedded in full: SHA-256 (FIPS
180-4), HMAC (RFC 2104, block size 64) and PBKDF2 (RFC 8018) with
`dkLen = hLen = 32`, over byte lists (`Nat` entries `< 256`).  The round and
initial-hash constants are derived, as the standard defines them, from the
fractional parts of the cube and square roots of the first primes. -/

def w32 (x : Nat) : Nat := x % 4294967296

def rotr32 (n x : Nat) : Nat := w32 (x / 2 ^ n + x % 2 ^ n * 2 ^ (32 - n))

def shr32 (n x : Nat) : Nat := x / 2 ^ n

def not32 (x : Nat) : Nat := 4294967295 - x

def bigSigma0 (x : Nat) : Nat :=
  Nat.xor (rotr32 2 x) (Nat.xor (rotr32 13 x) (rotr32 22 x))

def bigSigma1 (x : Nat) : Nat :=
  Nat.xor (rotr32 6 x) (Nat.xor (rotr32 11 x) (rotr32 25 x))

def smallSigma0 (x : Nat) : Nat :=
  Nat.xor (rotr32 7 x) (Nat.xor (rotr32 18 x) (shr32 3 x))

def smallSigma1 (x : Nat) : Nat :=
  Nat.xor (rotr32 17 x) (Nat.xor (rotr32 19 x) (shr32 10 x))

def chFn (x y z : Nat) : Nat :=
  Nat.xor (Nat.land x y) (Nat.land (not32 x) z)

def majFn (x y z : Nat) : Nat :=
  Nat.xor (Nat.land x y) (Nat.xor (Nat.land x z) (Nat.land y z))

/-- Integer cube root by fuelled binary search (enough fuel to halve the
interval down to width one). -/
def icbrtAux : Nat → Nat → Nat → Nat → Nat
  | 0, _, lo, _ => lo
  | fuel + 1, n, lo, hi =>
    if hi ≤ lo + 1 then lo
    else
      let mid := (lo + hi) / 2
      if mid * mid * mid ≤ n then icbrtAux fuel n mid hi
      else icbrtAux fuel n lo mid

def icbrt (n : Nat) : Nat := icbrtAux (n + 2) n 0 (n + 1)

def primes64 : List Nat :=
  [2, 3, 5, 7, 11, 13, 17, 19, 23, 29, 31, 37, 41, 43, 47, 53, 59, 61, 67,
   71, 73, 79, 83, 89, 97, 101, 103, 107, 109, 113, 127, 131, 137, 139, 149,
   151, 157, 163, 167, 173, 179, 181, 191, 193, 197, 199, 211, 223, 227, 229,
   233, 239, 241, 251, 257, 263, 269, 271, 277, 281, 283, 293, 307, 311]

/-- First 32 bits of the fractional part of the cube root of `p`. -/
def cbrtFracBits (p : Nat) : Nat := icbrt (p * 2 ^ 96) % 2 ^ 32

/-- First 32 bits of the fractional part of the square root of `p`. -/
def sqrtFracBits (p : Nat) : Nat := Nat.sqrt (p * 2 ^ 64) % 2 ^ 32

def sha256K : List Nat := primes64.map cbrtFracBits

/-- The eight 32-bit working registers of SHA-256. -/
structure H8 where
  a : Nat
  b : Nat
  c : Nat
  d : Nat
  e : Nat
  f : Nat
  g : Nat
  hh : Nat

def sha256H0 : H8 :=
  { a := sqrtFracBits 2, b := sqrtFracBits 3, c := sqrtFracBits 5,
    d := sqrtFracBits 7, e := sqrtFracBits 11, f := sqrtFracBits 13,
    g := sqrtFracBits 17, hh := sqrtFracBits 19 }

def bytesToWords : List Nat → List Nat
  | b0 :: b1 :: b2 :: b3 :: rest =>
    (b0 * 2 ^ 24 + b1 * 2 ^ 16 + b2 * 2 ^ 8 + b3) :: bytesToWords rest
  | _ => []

def wordToBytes (w : Nat) : List Nat :=
  [w / 2 ^ 24 % 256, w / 2 ^ 16 % 256, w / 2 ^ 8 % 256, w % 256]

/-- Extend the 16 message words with `n` further schedule words. -/
def msgSchedule : Nat → List Nat → List Nat
  | 0, ws => ws
  | n + 1, ws =>
    let len := ws.length
    msgSchedule n (ws ++
      [w32 (smallSigma1 (ws.getD (len - 2) 0) + ws.getD (len - 7) 0 +
        smallSigma0 (ws.getD (len - 15) 0) + ws.getD (len - 16) 0)])

def sha256Round (st : H8) (kw : Nat × Nat) : H8 :=
  let t1 := w32 (st.hh + bigSigma1 st.e + chFn st.e st.f st.g + kw.2 + kw.1)
  let t2 := w32 (bigSigma0 st.a + majFn st.a st.b st.c)
  { a := w32 (t1 + t2), b := st.a, c := st.b, d := st.c,
    e := w32 (st.d + t1), f := st.e, g := st.f, hh := st.g }

def sha256Compress (st : H8) (chunk : List Nat) : H8 :=
  let ws := msgSchedule 48 (bytesToWords chunk)
  let fin := (List.zip ws sha256K).foldl sha256Round st
  { a := w32 (st.a + fin.a), b := w32 (st.b + fin.b), c := w32 (st.c + fin.c),
    d := w32 (st.d + fin.d), e := w32 (st.e + fin.e), f := w32 (st.f + fin.f),
    g := w32 (st.g + fin.g), hh := w32 (st.hh + fin.hh) }

def lenBytes64 (n : Nat) : List Nat :=
  [n / 2 ^ 56 % 256, n / 2 ^ 48 % 256, n / 2 ^ 40 % 256, n / 2 ^ 32 % 256,
   n / 2 ^ 24 % 256, n / 2 ^ 16 % 256, n / 2 ^ 8 % 256, n % 256]

def padMessage (msg : List Nat) : List Nat :=
  msg ++ [128] ++ List.replicate ((55 + 64 - msg.length % 64) % 64) 0 ++
    lenBytes64 (8 * msg.length)

def chunks64 : Nat → List Nat → List (List Nat)
  | 0, _ => []
  | _, [] => []
  | fuel + 1, l => l.take 64 :: chunks64 fuel (l.drop 64)

def serializeH8 (st : H8) : List Nat :=
  wordToBytes st.a ++ wordToBytes st.b ++ wordToBytes st.c ++
    wordToBytes st.d ++ wordToBytes st.e ++ wordToBytes st.f ++
    wordToBytes st.g ++ wordToBytes st.hh

def sha256 (msg : List Nat) : List Nat :=
  let padded := padMessage msg
  serializeH8 ((chunks64 padded.length padded).foldl sha256Compress sha256H0)

/-- HMAC-SHA256 (RFC 2104), block size 64. -/
def hmacSha256 (key msg : List Nat) : List Nat :=
  let k0 := if 64 < key.length then sha256 key else key
  let kp := k0 ++ List.replicate (64 - k0.length) 0
  let ipad := kp.map (fun b => Nat.xor b 54)
  let opad := kp.map (fun b => Nat.xor b 92)
  sha256 (opad ++ sha256 (ipad ++ msg))

def xorBytes (a b : List Nat) : List Nat := List.zipWith Nat.xor a b

/-- The `U_2, ..., U_c` chain of PBKDF2: `count` further PRF applications,
accumulating the xor. -/
def pbkdf2Loop (pw : List Nat) : Nat → List Nat → List Nat → List Nat
  | 0, _, acc => acc
  | count + 1, u, acc =>
    let u2 := hmacSha256 pw u
    pbkdf2Loop pw count u2 (xorBytes acc u2)

/-- PBKDF2-HMAC-SHA256 with `dkLen = hLen = 32`, so the output is the single
block `T_1 = U_1 xor ... xor U_c` (RFC 8018); this is what
`hashlib.pbkdf2_hmac('sha256', password, salt, iterations)` returns. -/
def pbkdf2HmacSha256 (pw salt : List Nat) (iterations : Nat) : List Nat :=
  let u1 := hmacSha256 pw (salt ++ [0, 0, 0, 1])
  pbkdf2Loop pw (iterations - 1) u1 u1

/-- Python's `password.encode('utf-8')`. -/
def strBytes (s : String) : List Nat := s.toUTF8.toList.map (fun b => b.toNat)

/-- auth.py lines 316-328 (the fresh-salt generation by
`secrets.token_bytes` when `salt is None` is modelled by the caller passing
the generated salt explicitly). -/
def _hash_password (password : String) (salt : List Nat) : List Nat × List Nat :=
  (pbkdf2HmacSha256 (strBytes password) salt SecurityConfig.HASH_ITERATIONS,
   salt)

/-- `hmac.compare_digest`: constant-time comparison, extensionally equality. -/
def compare_digest (a b : List Nat) : Bool := decide (a = b)

/-- auth.py lines 330-333. -/
def _verify_password (password : String) (stored_hash salt : List Nat) : Bool :=
  compare_digest (_hash_password password salt).1 stored_hash

theorem verify_hash_self (p : String) (s : List Nat) :
    _verify_password p (_hash_password p s).1 s = true := by
  simp [_verify_password, compare_digest]

/-! ### Digest shape lemmas and claim C3 -/

theorem wordToBytes_lt (w : Nat) : ∀ b ∈ wordToBytes w, b < 256 := by
  intro b hb
  simp only [wordToBytes, List.mem_cons, List.not_mem_nil, or_false] at hb
  rcases hb with h | h | h | h <;> subst h <;>
    exact Nat.mod_lt _ (by norm_num)

theorem sha256_length (msg : List Nat) : (sha256 msg).length = 32 := by
  simp [sha256, serializeH8, wordToBytes]

theorem sha256_lt (msg : List Nat) : ∀ b ∈ sha256 msg, b < 256 := by
  intro b hb
  simp only [sha256, serializeH8, List.mem_append] at hb
  rcases hb with ((((((h | h) | h) | h) | h) | h) | h) | h <;>
    exact wordToBytes_lt _ _ h

theorem hmacSha256_length (key msg : List Nat) :
    (hmacSha256 key msg).length = 32 := by
  simp [hmacSha256, sha256_length]

theorem hmacSha256_lt (key msg : List Nat) :
    ∀ b ∈ hmacSha256 key msg, b < 256 := by
  intro b hb
  exact sha256_lt _ b hb

theorem xorBytes_length (a b : List Nat) :
    (xorBytes a b).length = min a.length b.length := by
  simp [xorBytes]

theorem xorBytes_lt (a : List Nat) : ∀ (b : List Nat),
    (∀ x ∈ a, x < 256) → (∀ x ∈ b, x < 256) →
    ∀ x ∈ xorBytes a b, x < 256 := by
  induction a with
  | nil => intro b _ _ x hx; simp [xorBytes] at hx
  | cons y ys ih =>
    intro b ha hb x hx
    cases b with
    | nil => simp [xorBytes] at hx
    | cons z zs =>
      simp only [xorBytes, List.zipWith_cons_cons, List.mem_cons] at hx
      rcases hx with h | h
      · subst h
        have h8 : (256 : Nat) = 2 ^ 8 := by norm_num
        rw [h8]
        exact Nat.xor_lt_two_pow (h8 ▸ ha y (by simp))
          (h8 ▸ hb z (by simp))
      · exact ih zs (fun u hu => ha u (by simp [hu]))
          (fun u hu => hb u (by simp [hu])) x h

theorem pbkdf2Loop_shape (pw : List Nat) (count : Nat) :
    ∀ u acc, acc.length = 32 → (∀ x ∈ acc, x < 256) →
      (pbkdf2Loop pw count u acc).length = 32 ∧
      ∀ x ∈ pbkdf2Loop pw count u acc, x < 256 := by
  induction count with
  | zero => intro u acc hl hb; exact ⟨hl, hb⟩
  | succ n ih =>
    intro u acc hl hb
    simp only [pbkdf2Loop]
    refine ih _ _ ?_ ?_
    · rw [xorBytes_length, hl, hmacSha256_length]; rfl
    · exact xorBytes_lt _ _ hb (hmacSha256_lt _ _)

theorem pbkdf2_length (pw salt : List Nat) (iterations : Nat) :
    (pbkdf2HmacSha256 pw salt iterations).length = 32 :=
  (pbkdf2Loop_shape pw (iterations - 1) _ _ (hmacSha256_length _ _)
    (hmacSha256_lt _ _)).1

theorem pbkdf2_lt (pw salt : List Nat) (iterations : Nat) :
    ∀ x ∈ pbkdf2HmacSha256 pw salt iterations, x < 256 :=
  (pbkdf2Loop_shape pw (iterations - 1) _ _ (hmacSha256_length _ _)
    (hmacSha256_lt _ _)).2

attribute [irreducible] pbkdf2HmacSha256

/-- The derived digest of a password under a fixed salt, packaged into the
finite type `Fin 32 → Fin 256` (possible because the digest always has
exactly 32 bytes, each `< 256`). -/
def digestFin (salt : List Nat) (p : String) : Fin 32 → Fin 256 :=
  fun i =>
    ⟨(pbkdf2HmacSha256 (strBytes p) salt SecurityConfig.HASH_ITERATIONS).getD
       i.val 0,
     by
       have hlen := pbkdf2_length (strBytes p) salt
         SecurityConfig.HASH_ITERATIONS
       have hi : i.val <
           (pbkdf2HmacSha256 (strBytes p) salt
             SecurityConfig.HASH_ITERATIONS).length := by
         rw [hlen]; exact i.isLt
       rw [List.getD_eq_getElem _ 0 hi]
       exact pbkdf2_lt _ _ _ _ (List.getElem_mem _)⟩

theorem digestFin_eq_iff (salt : List Nat) (p q : String)
    (h : digestFin salt p = digestFin salt q) :
    pbkdf2HmacSha256 (strBytes p) salt SecurityConfig.HASH_ITERATIONS =
      pbkdf2HmacSha256 (strBytes q) salt SecurityConfig.HASH_ITERATIONS := by
  have hlp := pbkdf2_length (strBytes p) salt SecurityConfig.HASH_ITERATIONS
  have hlq := pbkdf2_length (strBytes q) salt SecurityConfig.HASH_ITERATIONS
  refine List.ext_getElem (by rw [hlp, hlq]) ?_
  intro i h1 h2
  have hi32 : i < 32 := by rw [hlp] at h1; exact h1
  have h0 := congrFun h ⟨i, hi32⟩
  simp only [digestFin, Fin.mk.injEq] at h0
  rw [List.getD_eq_getElem _ 0 h1, List.getD_eq_getElem _ 0 h2] at h0
  exact h0

/-- **C3, counterexample.**  The claim as stated — verification with *any*
different password always fails — is refutable: the digest space is finite
(32 bytes) while passwords are infinite, so by pigeonhole two distinct
passwords share a digest under the empty salt, and verifying the one against
the other's stored digest succeeds. -/
theorem C3_counterexample :
    ¬ (∀ (p p2 : String) (s s2 : List Nat),
        _verify_password p (_hash_password p s).1 s = true ∧
        (p ≠ p2 → _verify_password p2 (_hash_password p s).1 s = false) ∧
        (s ≠ s2 → _verify_password p (_hash_password p s).1 s2 = false)) := by
  intro hclaim
  obtain ⟨x, y, hxy, hfeq⟩ :=
    Finite.exists_ne_map_eq_of_infinite (digestFin [])
  have hd := digestFin_eq_iff [] x y hfeq
  have h2 := (hclaim x y [] []).2.1 hxy
  simp [_verify_password, _hash_password, compare_digest, hd] at h2

/-- **C3, amended.**  Verifying a password against the digest produced from
it with the same salt always succeeds; and verifying any `(password, salt)`
pair against a stored digest succeeds exactly when the derived digests
coincide — so a wrong password or wrong salt is rejected precisely unless it
collides under PBKDF2-HMAC-SHA256 (which pigeonhole shows must happen for
*some* pair, though finding one is computationally infeasible). -/
theorem C3_verify_roundtrip_amended :
    (∀ (p : String) (s : List Nat),
      _verify_password p (_hash_password p s).1 s = true) ∧
    (∀ (p p2 : String) (s s2 : List Nat),
      _verify_password p2 (_hash_password p s).1 s2 = true ↔
        pbkdf2HmacSha256 (strBytes p2) s2 SecurityConfig.HASH_ITERATIONS =
          pbkdf2HmacSha256 (strBytes p) s SecurityConfig.HASH_ITERATIONS) :=
  ⟨fun p s => verify_hash_self p s, by
    intro p p2 s s2
    simp [_verify_password, _hash_password, compare_digest]⟩

/-! ## String helpers (Python `in` on str is substring containment) -/

def chPfx : List Char → List Char → Bool
  | [], _ => true
  | _ :: _, [] => false
  | a :: as2, b :: bs => a == b && chPfx as2 bs

def hasSubList (sub : List Char) : List Char → Bool
  | [] => chPfx sub []
  | c :: cs => chPfx sub (c :: cs) || hasSubList sub cs

/-- `sub in s` for Python strings. -/
def strHasSub (s sub : String) : Bool := hasSubList sub.data s.data

/-- Python `str.lower()` (ASCII range, which is all the code compares). -/
def strLower (s : String) : String := String.mk (s.data.map Char.toLower)

/-- Python `str.upper()`. -/
def strUpper (s : String) : String := String.mk (s.data.map Char.toUpper)

/-! ## PasswordPolicy (auth.py lines 147-208)

`str.isupper`/`islower`/`isdigit` of Python are modelled by the
corresponding ASCII `Char` predicates. -/

def common_passwords : List String :=
  ["password", "123456", "qwerty", "admin", "letmein"]

def specialChars : List Char := "!@#$%^&*()_+-=[]\x7b\x7d|;:,.<>?".data

/-- auth.py lines 181-208.  The score is an `Int`: the repetition penalty can
push it below zero. -/
def _calculate_strength (password : String) : String :=
  let score : Int := min (password.length : Int) 25
  let score := score + (if password.data.any Char.isUpper then 6 else 0)
  let score := score + (if password.data.any Char.isLower then 6 else 0)
  let score := score + (if password.data.any Char.isDigit then 6 else 0)
  let score := score +
    (if password.data.any (fun c => specialChars.contains c) then 6 else 0)
  let score := score -
    (if strHasSub password (strLower password) ||
        strHasSub password (strUpper password) then 10 else 0)
  if score < 20 then "weak" else if score < 35 then "medium" else "strong"

structure PolicyResult where
  valid : Bool
  errors : List String
  strength : String
deriving DecidableEq, Repr

/-- auth.py lines 150-179. -/
def validate_password (password : String) : PolicyResult :=
  let errors :=
    (if password.length < 8 then
      ["Password must be at least 8 characters long"] else []) ++
    (if 128 < password.length then
      ["Password must be less than 128 characters"] else []) ++
    (if !(password.data.any Char.isUpper) then
      ["Password must contain at least one uppercase letter"] else []) ++
    (if !(password.data.any Char.isLower) then
      ["Password must contain at least one lowercase letter"] else []) ++
    (if !(password.data.any Char.isDigit) then
      ["Password must contain at least one number"] else []) ++
    (if common_passwords.contains (strLower password) then
      ["Password is too common"] else [])
  { valid := errors.isEmpty, errors := errors,
    strength := _calculate_strength password }

/-! ## AuditLogger and AuthService state (auth.py lines 210-302)

The three tables (`users` — owned by the external user store, `user_sessions`,
`audit_logs`) and the rate-limit store form the service state.  Whether a
given audit INSERT succeeds is modelled by the explicit `auditOk` flag each
operation receives (the source's exception from a broken audit sink). -/

structure UserRow where
  id : Nat
  username : String
  email : String
  password_hash : List Nat
  salt : List Nat
  role : String
  is_active : Bool
  password_changed_at : Option Nat := none

structure SessionRow where
  user_id : Nat
  session_token : String
  expires_at : Nat
  created_at : Nat
  client_ip : Option String := none
  user_agent : Option String := none
  is_active : Bool := true

structure AuditEvent where
  event_type : String
  user_id : Option Nat := none
  username : Option String := none
  client_ip : Option String := none
  user_agent : Option String := none
  details : Option String := none
  success : Bool := true

structure AuthState where
  users : List UserRow
  sessions : List SessionRow
  rate_limits : RLState
  audit_logs : List AuditEvent

/-- The INSERT into `audit_logs`, which can fail (broken audit sink). -/
def audit_insert (auditOk : Bool) (logs : List AuditEvent) (ev : AuditEvent) :
    Except String (List AuditEvent) :=
  if auditOk then .ok (logs ++ [ev]) else .error "audit write failed"

/-- auth.py lines 247-268: `AuditLogger.log_event` catches any storage
failure inside itself (`try ... except: logger.error`), so it always
returns and at worst leaves the log unchanged. -/
def log_event (auditOk : Bool) (st : AuthState) (ev : AuditEvent) : AuthState :=
  match audit_insert auditOk st.audit_logs ev with
  | .ok logs => { st with audit_logs := logs }
  | .error _ => st

/-! ## AuthService operations (auth.py lines 316-578) -/

/-- What `validate_session` returns on success. -/
structure SessionInfo where
  id : Nat
  username : String
  role : String
  session_created : Nat
  session_expires : Nat
deriving DecidableEq, Repr

/-- What `authenticate_user` returns on success (never the hash/salt). -/
structure UserInfo where
  id : Nat
  username : String
  role : String
deriving DecidableEq, Repr

/-- auth.py lines 426-472.  The SELECT joins `user_sessions s` with
`users u` on `s.user_id = u.id`, filters `s.session_token = ? AND
s.is_active = 1`, and selects `s.*, u.username, u.role, u.is_active`.  Both
`s.is_active` and `u.is_active` are therefore columns named `is_active` in
the result row, and `sqlite3.Row` name lookup returns the *first* matching
column — `s.is_active`, which the WHERE clause forces to 1.  The
`if not session['is_active']` check below is kept exactly as the source
behaves: it reads the session's own flag, not the user's. -/
def validate_session (auditOk : Bool) (st : AuthState) (session_token : String)
    (now : Nat) : Option SessionInfo × AuthState :=
  if session_token = "" then (none, st)
  else
    match st.sessions.find?
        (fun s => s.session_token == session_token && s.is_active) with
    | none => (none, st)
    | some s =>
      match st.users.find? (fun u => u.id == s.user_id) with
      | none => (none, st)
      | some u =>
        if s.expires_at < now then
          let st2 := { st with sessions := st.sessions.map (fun r =>
            if r.session_token == session_token then
              { r with is_active := false } else r) }
          (none, log_event auditOk st2
            { event_type := "session_expired", user_id := some s.user_id,
              details := some (session_token.take 16 ++ "..."),
              success := false })
        else
          if !s.is_active then (none, st)
          else
            (some { id := s.user_id, username := u.username, role := u.role,
                    session_created := s.created_at,
                    session_expires := s.expires_at }, st)

/-- auth.py lines 403-424.  The fresh token from `secrets.token_urlsafe` is
the explicit `token` parameter. -/
def create_session (auditOk : Bool) (st : AuthState) (user_id : Nat)
    (token : String) (now : Nat) (client_ip user_agent : Option String)
    (remember : Bool) : Option String × AuthState :=
  let expires_hours := if remember then SecurityConfig.SESSION_REMEMBER_HOURS
    else SecurityConfig.SESSION_EXPIRY_HOURS
  let expires_at := now + expires_hours * 60
  let st2 := { st with sessions := st.sessions ++
    [{ user_id := user_id, session_token := token, expires_at := expires_at,
       created_at := now, client_ip := client_ip, user_agent := user_agent,
       is_active := true }] }
  (some token, log_event auditOk st2
    { event_type := "session_created", user_id := some user_id,
      client_ip := client_ip, user_agent := user_agent,
      details := some (if remember then "remember" else "no remember"),
      success := true })

/-- auth.py lines 474-500. -/
def logout_session (auditOk : Bool) (st : AuthState) (session_token : String) :
    Bool × AuthState :=
  if session_token = "" then (false, st)
  else
    match st.sessions.find?
        (fun s => s.session_token == session_token && s.is_active) with
    | some s =>
      let st2 := { st with sessions := st.sessions.map (fun r =>
        if r.session_token == session_token then
          { r with is_active := false } else r) }
      (true, log_event auditOk st2
        { event_type := "logout", user_id := some s.user_id,
          details := some (session_token.take 16 ++ "..."), success := true })
    | none => (false, st)

/-- auth.py lines 339-401.  The `users` SELECT matches username or email;
conversion of hex-encoded hash/salt columns is a no-op here because the model
stores bytes directly. -/
def authenticate_user (auditOk : Bool) (st : AuthState)
    (username password : String) (now : Nat)
    (client_ip user_agent : Option String) : Option UserInfo × AuthState :=
  let rl := check_rate_limit st.rate_limits username now
  let st1 := { st with rate_limits := rl.2 }
  if !rl.1.allowed then
    (none, log_event auditOk st1
      { event_type := "login_blocked", username := some username,
        client_ip := client_ip, user_agent := user_agent,
        details := some "rate_limited", success := false })
  else
    match st1.users.find?
        (fun u => u.username == username || u.email == username) with
    | none =>
      let st2 := { st1 with
        rate_limits := record_attempt st1.rate_limits username now false }
      (none, log_event auditOk st2
        { event_type := "login_failed", username := some username,
          client_ip := client_ip, user_agent := user_agent,
          details := some "user_not_found", success := false })
    | some u =>
      if !u.is_active then
        let st2 := { st1 with
          rate_limits := record_attempt st1.rate_limits username now false }
        (none, log_event auditOk st2
          { event_type := "login_failed", user_id := some u.id,
            username := some username, client_ip := client_ip,
            user_agent := user_agent, details := some "account_disabled",
            success := false })
      else if !(_verify_password password u.password_hash u.salt) then
        let st2 := { st1 with
          rate_limits := record_attempt st1.rate_limits username now false }
        (none, log_event auditOk st2
          { event_type := "login_failed", user_id := some u.id,
            username := some username, client_ip := client_ip,
            user_agent := user_agent, details := some "invalid_password",
            success := false })
      else
        let st2 := { st1 with
          rate_limits := record_attempt st1.rate_limits username now true }
        (some { id := u.id, username := u.username, role := u.role },
         log_event auditOk st2
           { event_type := "login_success", user_id := some u.id,
             username := some u.username, client_ip := client_ip,
             user_agent := user_agent, success := true })

/-- Result shape of `change_password`. -/
structure ChangeResult where
  success : Bool
  error : Option String := none
  details : List String := []
deriving DecidableEq, Repr

/-- auth.py lines 522-578.  The fresh salt from `secrets.token_bytes` inside
`_hash_password` is the explicit `freshSalt` parameter. -/
def change_password (auditOk : Bool) (st : AuthState) (user_id : Nat)
    (current_password new_password : String) (now : Nat)
    (freshSalt : List Nat) (client_ip : Option String) :
    ChangeResult × AuthState :=
  let v := validate_password new_password
  if !v.valid then
    ({ success := false, error := some "invalid_password",
       details := v.errors }, st)
  else
    match st.users.find? (fun u => u.id == user_id) with
    | none => ({ success := false, error := some "user_not_found" }, st)
    | some u =>
      if !(_verify_password current_password u.password_hash u.salt) then
        ({ success := false, error := some "invalid_current_password" },
         log_event auditOk st
           { event_type := "password_change_failed", user_id := some user_id,
             username := some u.username, client_ip := client_ip,
             details := some "invalid_current_password", success := false })
      else
        let hashed := _hash_password new_password freshSalt
        let st1 := { st with users := st.users.map (fun (r : UserRow) =>
          if r.id == user_id then
            { r with
              password_hash := hashed.1, salt := hashed.2,
              password_changed_at := some now } else r) }
        let st2 := { st1 with
          sessions := st1.sessions.map (fun (s : SessionRow) =>
            if s.user_id == user_id then { s with is_active := false }
            else s) }
        ({ success := true },
         log_event auditOk st2
           { event_type := "password_changed", user_id := some user_id,
             username := some u.username, client_ip := client_ip,
             success := true })

/-! ### Frame lemmas for the audit logger -/

theorem log_event_users (auditOk : Bool) (st : AuthState) (ev : AuditEvent) :
    (log_event auditOk st ev).users = st.users := by
  cases auditOk <;> rfl

theorem log_event_sessions (auditOk : Bool) (st : AuthState)
    (ev : AuditEvent) : (log_event auditOk st ev).sessions = st.sessions := by
  cases auditOk <;> rfl

theorem log_event_rate_limits (auditOk : Bool) (st : AuthState)
    (ev : AuditEvent) :
    (log_event auditOk st ev).rate_limits = st.rate_limits := by
  cases auditOk <;> rfl

/-- The session tokens of a state are pairwise distinct — the UNIQUE
constraint on `user_sessions.session_token`. -/
def tokensUnique (st : AuthState) : Prop :=
  st.sessions.Pairwise (fun a b => a.session_token ≠ b.session_token)

/-! ### Claim C1: deactivated user account versus `validate_session` -/

def c1user : UserRow :=
  { id := 1, username := "alice", email := "alice@example.com",
    password_hash := [], salt := [], role := "employee", is_active := false }

def c1sess : SessionRow :=
  { user_id := 1, session_token := "tok1", expires_at := 100, created_at := 0 }

def c1st : AuthState :=
  { users := [c1user], sessions := [c1sess], rate_limits := [],
    audit_logs := [] }

/-- **C1 (code bug).**  A stored, active, unexpired session whose underlying
user has `is_active = false`: the source intends `if not
session['is_active']` to test the *user's* flag (comment `# Check if user is
still active`), but the duplicated `is_active` column name makes
`sqlite3.Row` return `s.is_active`, which the WHERE clause forces to 1.  So
`validate_session` returns the user info instead of the `None` the spec
states (and, as the spec says, does not mutate the session). -/
theorem C1_inactive_user_validates_eval :
    c1user.is_active = false ∧ c1sess.is_active = true ∧
    validate_session true c1st "tok1" 50 =
      (some { id := 1, username := "alice", role := "employee",
              session_created := 0, session_expires := 100 }, c1st) :=
  ⟨rfl, rfl, rfl⟩

/-! ### Claim C10: empty token and already-inactive sessions -/

/-- **C10.**  For an empty token, `validate_session` returns `None` and
`logout_session` returns `False`, both leaving the state untouched (no
storage write, no audit event); and `logout_session` on a token all of whose
sessions are already inactive returns `False` and leaves the state
untouched, because only active sessions are matched. -/
theorem C10_empty_token_and_inactive_logout (auditOk : Bool) (st : AuthState)
    (now : Nat) (tok : String)
    (hinactive : ∀ s ∈ st.sessions, s.session_token = tok →
      s.is_active = false) :
    validate_session auditOk st "" now = (none, st) ∧
    logout_session auditOk st "" = (false, st) ∧
    logout_session auditOk st tok = (false, st) := by
  refine ⟨by simp [validate_session], by simp [logout_session], ?_⟩
  by_cases he : tok = ""
  · simp [logout_session, he]
  · have hfind : st.sessions.find?
        (fun s => s.session_token == tok && s.is_active) = none := by
      rw [List.find?_eq_none]
      intro x hx
      by_cases ht : x.session_token = tok
      · simp [ht, hinactive x hx ht]
      · simp [ht]
    simp [logout_session, he, hfind]

def c10sess : SessionRow :=
  { user_id := 2, session_token := "tok10", expires_at := 100,
    created_at := 0, is_active := false }

def c10st : AuthState :=
  { users := [], sessions := [c10sess], rate_limits := [], audit_logs := [] }

/-- Witness for C10 at a concrete state holding one already-inactive
session. -/
theorem C10_empty_token_and_inactive_logout_witness :
    validate_session true c10st "" 5 = (none, c10st) ∧
    logout_session true c10st "" = (false, c10st) ∧
    logout_session true c10st "tok10" = (false, c10st) :=
  C10_empty_token_and_inactive_logout true c10st 5 "tok10" (by
    intro s hs _
    simp only [c10st, List.mem_singleton] at hs
    subst hs
    rfl)

/-! ### Session lookup lemmas -/

/-- If every element of the first part fails the predicate, `find?` over the
concatenation searches the second part. -/
theorem find?_append_of_none {α : Type} (p : α → Bool) (l1 l2 : List α)
    (h : ∀ x ∈ l1, p x = false) :
    (l1 ++ l2).find? p = l2.find? p := by
  induction l1 with
  | nil => simp
  | cons a rest ih =>
    simp only [List.cons_append, List.find?_cons, h a (by simp)]
    exact ih (fun x hx => h x (by simp [hx]))

/-- With pairwise-distinct tokens, the session query finds exactly the known
active session with that token. -/
theorem find?_session_unique (sessions : List SessionRow) (tok : String)
    (s : SessionRow)
    (huniq : sessions.Pairwise (fun a b => a.session_token ≠ b.session_token))
    (hs : s ∈ sessions) (htok : s.session_token = tok)
    (hact : s.is_active = true) :
    sessions.find? (fun x => x.session_token == tok && x.is_active) =
      some s := by
  induction sessions with
  | nil => simp at hs
  | cons a rest ih =>
    rcases List.pairwise_cons.mp huniq with ⟨hhead, htail⟩
    rcases List.mem_cons.mp hs with he | hm
    · subst he
      simp [List.find?_cons, htok, hact]
    · have hne : a.session_token ≠ tok := by
        rw [← htok]; exact hhead s hm
      simp only [List.find?_cons]
      have : (a.session_token == tok && a.is_active) = false := by
        simp [hne]
      rw [this]
      exact ih htail hm

/-- A session surviving the change-password deactivation map with token
`tok` and still active must come from an active original with a different
`user_id`. -/
theorem mem_deactivate_map (sessions : List SessionRow) (uid : Nat)
    (r : SessionRow)
    (hr : r ∈ sessions.map (fun s =>
      if s.user_id == uid then { s with is_active := false } else s)) :
    ∃ q ∈ sessions,
      (q.user_id = uid ∧ r = { q with is_active := false }) ∨
      (q.user_id ≠ uid ∧ r = q) := by
  rcases List.mem_map.mp hr with ⟨q, hq, he⟩
  by_cases hb : q.user_id = uid
  · refine ⟨q, hq, Or.inl ⟨hb, ?_⟩⟩
    rw [← he]; simp [hb]
  · refine ⟨q, hq, Or.inr ⟨hb, ?_⟩⟩
    rw [← he]; simp [hb]

/-! ### Claim C5: lazy expiry and fresh-token validation -/

/-- **C5.**  (a) For a stored active session whose `expires_at` lies in the
past (and whose user row exists, per the schema's foreign key),
`validate_session` returns `None` and, as an observable side effect, the
session's `is_active` becomes false.  (b) On a freshly created, unexpired
token, `validate_session` returns the originating user's id and role. -/
theorem C5_lazy_expiry_and_fresh_token (auditOk auditOk2 : Bool)
    (st : AuthState) (s : SessionRow) (u : UserRow) (tok : String) (now : Nat)
    (huniq : tokensUnique st) (hs : s ∈ st.sessions)
    (htok : s.session_token = tok) (hact : s.is_active = true)
    (hux : st.users.find? (fun x => x.id == s.user_id) = some u)
    (hexp : s.expires_at < now) (hne : tok ≠ "")
    (st2 : AuthState) (uid : Nat) (u2 : UserRow) (tok2 : String)
    (now2 now3 : Nat) (ip ua : Option String) (remember : Bool)
    (hfresh : ∀ x ∈ st2.sessions, x.session_token ≠ tok2) (hne2 : tok2 ≠ "")
    (hu2 : st2.users.find? (fun x => x.id == uid) = some u2)
    (hunexp : now3 ≤ now2 +
      (if remember then SecurityConfig.SESSION_REMEMBER_HOURS
       else SecurityConfig.SESSION_EXPIRY_HOURS) * 60) :
    ((validate_session auditOk st tok now).1 = none ∧
      ∀ r ∈ (validate_session auditOk st tok now).2.sessions,
        r.session_token = tok → r.is_active = false) ∧
    (validate_session auditOk2
        (create_session auditOk2 st2 uid tok2 now2 ip ua remember).2
        tok2 now3).1 =
      some { id := uid, username := u2.username, role := u2.role,
             session_created := now2,
             session_expires := now2 +
               (if remember then SecurityConfig.SESSION_REMEMBER_HOURS
                else SecurityConfig.SESSION_EXPIRY_HOURS) * 60 } := by
  constructor
  · have hfind := find?_session_unique st.sessions tok s huniq hs htok hact
    simp only [validate_session, if_neg hne, hfind, hux, if_pos hexp]
    refine ⟨trivial, ?_⟩
    intro r hr hrt
    rw [log_event_sessions] at hr
    simp only at hr
    rcases List.mem_map.mp hr with ⟨q, _, he⟩
    by_cases hb : q.session_token == tok
    · rw [if_pos hb] at he
      rw [← he]
    · rw [if_neg hb] at he
      subst he
      exact absurd (by simp [hrt]) hb
  · set newS : SessionRow :=
      { user_id := uid, session_token := tok2,
        expires_at := now2 +
          (if remember then SecurityConfig.SESSION_REMEMBER_HOURS
           else SecurityConfig.SESSION_EXPIRY_HOURS) * 60,
        created_at := now2, client_ip := ip, user_agent := ua,
        is_active := true } with hnewS
    have hsessions :
        (create_session auditOk2 st2 uid tok2 now2 ip ua remember).2.sessions =
          st2.sessions ++ [newS] := by
      simp only [create_session, log_event_sessions]
    have husers :
        (create_session auditOk2 st2 uid tok2 now2 ip ua remember).2.users =
          st2.users := by
      simp only [create_session, log_event_users]
    have hfind :
        ((create_session auditOk2 st2 uid tok2 now2 ip ua
            remember).2.sessions).find?
          (fun x => x.session_token == tok2 && x.is_active) = some newS := by
      rw [hsessions]
      rw [find?_append_of_none _ _ _
        (fun x hx => by simp [hfresh x hx])]
      simp [List.find?_cons, hnewS]
    have hnotexp : ¬ (newS.expires_at < now3) := by
      rw [hnewS]
      exact Nat.not_lt.mpr hunexp
    simp only [validate_session, if_neg hne2, hfind, husers, hnewS, hu2,
      if_neg hnotexp]
    simp [hnewS]

def c5userA : UserRow :=
  { id := 3, username := "carl", email := "carl@example.com",
    password_hash := [], salt := [], role := "employee", is_active := true }

def c5sessA : SessionRow :=
  { user_id := 3, session_token := "tok5", expires_at := 10, created_at := 0 }

def c5stA : AuthState :=
  { users := [c5userA], sessions := [c5sessA], rate_limits := [],
    audit_logs := [] }

def c5userB : UserRow :=
  { id := 4, username := "dora", email := "dora@example.com",
    password_hash := [], salt := [], role := "admin", is_active := true }

def c5stB : AuthState :=
  { users := [c5userB], sessions := [], rate_limits := [], audit_logs := [] }

/-- Witness for C5: a concrete expired session (validated at time 20) and a
concrete fresh token (validated at time 5, expiring at 480). -/
theorem C5_lazy_expiry_and_fresh_token_witness :
    ((validate_session true c5stA "tok5" 20).1 = none ∧
      ∀ r ∈ (validate_session true c5stA "tok5" 20).2.sessions,
        r.session_token = "tok5" → r.is_active = false) ∧
    (validate_session true
        (create_session true c5stB 4 "tok6" 0 none none false).2
        "tok6" 5).1 =
      some { id := 4, username := "dora", role := "admin",
             session_created := 0, session_expires := 480 } :=
  C5_lazy_expiry_and_fresh_token true true c5stA c5sessA c5userA "tok5" 20
    (by simp [tokensUnique, c5stA]) (by simp [c5stA])
    rfl rfl rfl (by norm_num [c5sessA]) (by decide)
    c5stB 4 c5userB "tok6" 0 5 none none false
    (by simp [c5stB]) (by decide) rfl (by decide)

/-! ### Claim C4: password change invalidates every session of the user -/

/-- **C4.**  If `change_password` succeeds for `user_id`, then every token
that previously validated for that user (returned `Some info` with
`info.id = user_id`) subsequently fails `validate_session`. -/
theorem C4_change_password_kills_sessions (auditOk auditOk2 auditOk3 : Bool)
    (st st2 : AuthState) (uid : Nat) (cur new : String) (now : Nat)
    (fsalt : List Nat) (ip : Option String) (tok : String)
    (tnow tnow2 : Nat) (res : ChangeResult) (info : SessionInfo)
    (huniq : tokensUnique st)
    (hval : (validate_session auditOk st tok tnow).1 = some info)
    (hid : info.id = uid)
    (hcp : change_password auditOk2 st uid cur new now fsalt ip = (res, st2))
    (hsucc : res.success = true) :
    (validate_session auditOk3 st2 tok tnow2).1 = none := by
  -- Unpack what a successful validation implies about the pre-state.
  by_cases hne : tok = ""
  · rw [hne] at hval
    simp [validate_session] at hval
  rw [validate_session, if_neg hne] at hval
  split at hval
  · simp at hval
  rename_i s hfind
  split at hval
  · simp at hval
  rename_i u hu
  split at hval
  · simp at hval
  rename_i hexp
  split at hval
  · simp at hval
  rename_i hact2
  have hpred := List.find?_some hfind
  have hmem := List.mem_of_find?_eq_some hfind
  have hp2 : (s.session_token == tok) = true ∧ s.is_active = true := by
    simpa [Bool.and_eq_true] using hpred
  have hstok : s.session_token = tok := eq_of_beq hp2.1
  have hsud : s.user_id = uid := by
    have hinfo : info = { id := s.user_id, username := u.username,
                          role := u.role, session_created := s.created_at,
                          session_expires := s.expires_at } := by
      simpa using hval.symm
    rw [← hid, hinfo]
  -- Unpack what success implies about the post-state.
  rw [change_password] at hcp
  split at hcp
  · rw [Prod.mk.injEq] at hcp
    rw [← hcp.1] at hsucc
    simp at hsucc
  split at hcp
  · rw [Prod.mk.injEq] at hcp
    rw [← hcp.1] at hsucc
    simp at hsucc
  rename_i u2 hu2
  split at hcp
  · rw [Prod.mk.injEq] at hcp
    rw [← hcp.1] at hsucc
    simp at hsucc
  rw [Prod.mk.injEq] at hcp
  have hsess2 : st2.sessions = st.sessions.map (fun x =>
      if x.user_id == uid then { x with is_active := false } else x) := by
    rw [← hcp.2, log_event_sessions]
  -- Now validation in the post-state fails: no active session carries `tok`.
  rw [validate_session, if_neg hne]
  have hnone : st2.sessions.find?
      (fun x => x.session_token == tok && x.is_active) = none := by
    rw [List.find?_eq_none]
    intro r hr
    rw [hsess2] at hr
    rcases mem_deactivate_map st.sessions uid r hr with ⟨q, hq, hcase⟩
    rcases hcase with ⟨_, hrq⟩ | ⟨hqne, hrq⟩
    · subst hrq; simp
    · rw [hrq]
      by_cases hqt : q.session_token = tok
      · have hqs : q = s := by
          by_contra hqs
          exact (huniq.forall (fun a b hab => hab.symm) hq hmem hqs)
            (by rw [hqt, hstok])
        rw [hqs] at hqne
        exact absurd hsud hqne
      · simp [hqt]
  rw [hnone]

def c4salt : List Nat := [1, 2]

/-- The stored digest of the witness user: kept as the (never evaluated)
PBKDF2 term, exactly what a real enrolment would have stored. -/
def c4hash : List Nat := (_hash_password "Current1" c4salt).1

def c4user : UserRow :=
  { id := 7, username := "erin", email := "erin@example.com",
    password_hash := c4hash, salt := c4salt, role := "employee",
    is_active := true }

def c4sess : SessionRow :=
  { user_id := 7, session_token := "tok4", expires_at := 100,
    created_at := 0 }

def c4st : AuthState :=
  { users := [c4user], sessions := [c4sess], rate_limits := [],
    audit_logs := [] }

/-- Witness for C4: a concrete user whose stored hash matches the supplied
current password; the policy-valid new password makes `change_password`
succeed, after which the previously valid token fails validation. -/
theorem C4_change_password_kills_sessions_witness :
    (validate_session true c4st "tok4" 10).1 =
      some { id := 7, username := "erin", role := "employee",
             session_created := 0, session_expires := 100 } ∧
    ((change_password true c4st 7 "Current1" "Newpass99" 20 [3, 4]
        none).1).success = true ∧
    (validate_session true
        (change_password true c4st 7 "Current1" "Newpass99" 20 [3, 4]
          none).2 "tok4" 30).1 = none := by
  have hv : (validate_password "Newpass99").valid = true := by decide
  have hver : _verify_password "Current1" c4hash c4salt = true :=
    verify_hash_self "Current1" c4salt
  have hsucc : ((change_password true c4st 7 "Current1" "Newpass99" 20
      [3, 4] none).1).success = true := by
    simp [change_password, hv, hver, c4st, c4user]
  refine ⟨rfl, hsucc, ?_⟩
  exact C4_change_password_kills_sessions true true true c4st
    ((change_password true c4st 7 "Current1" "Newpass99" 20 [3, 4] none).2)
    7 "Current1" "Newpass99" 20 [3, 4] none "tok4" 10 30
    ((change_password true c4st 7 "Current1" "Newpass99" 20 [3, 4] none).1)
    { id := 7, username := "erin", role := "employee",
      session_created := 0, session_expires := 100 }
    (by simp [tokensUnique, c4st]) rfl rfl Prod.mk.eta.symm hsucc

/-! ### Claim C6: an active lockout short-circuits authentication -/

/-- **C6.**  When `check_rate_limit` denies an identifier,
`authenticate_user` returns `None` having only appended the `login_blocked`
audit event — and its outcome is identical for *any* password and *any*
credential store, i.e. no credential lookup or password verification takes
place (even if the supplied password is correct). -/
theorem C6_lockout_short_circuits (st : AuthState)
    (username password : String) (now : Nat) (ip ua : Option String)
    (hdenied :
      (check_rate_limit st.rate_limits username now).1.allowed = false) :
    authenticate_user true st username password now ip ua =
      (none,
        { st with
          rate_limits := (check_rate_limit st.rate_limits username now).2,
          audit_logs := st.audit_logs ++
            [{ event_type := "login_blocked", username := some username,
               client_ip := ip, user_agent := ua,
               details := some "rate_limited", success := false }] }) ∧
    (∀ (password2 : String) (users2 : List UserRow),
      authenticate_user true { st with users := users2 } username password2
          now ip ua =
        (none,
          { st with
            users := users2,
            rate_limits := (check_rate_limit st.rate_limits username now).2,
            audit_logs := st.audit_logs ++
              [{ event_type := "login_blocked", username := some username,
                 client_ip := ip, user_agent := ua,
                 details := some "rate_limited", success := false }] })) := by
  constructor
  · simp [authenticate_user, hdenied, log_event, audit_insert]
  · intro password2 users2
    simp [authenticate_user, hdenied, log_event, audit_insert]

def c6st : AuthState :=
  { users := [], sessions := [],
    rate_limits := [("carol",
      { attempts := 5, first_attempt := some 1, last_attempt := some 5,
        locked_until := some 100 })],
    audit_logs := [] }

/-- Witness for C6: a concretely locked-out identifier checked at time 50
(lockout holds until 100). -/
theorem C6_lockout_short_circuits_witness :
    authenticate_user true c6st "carol" "hunter2" 50 none none =
      (none,
        { c6st with
          rate_limits := (check_rate_limit c6st.rate_limits "carol" 50).2,
          audit_logs := c6st.audit_logs ++
            [{ event_type := "login_blocked", username := some "carol",
               client_ip := none, user_agent := none,
               details := some "rate_limited", success := false }] }) ∧
    (∀ (password2 : String) (users2 : List UserRow),
      authenticate_user true { c6st with users := users2 } "carol" password2
          50 none none =
        (none,
          { c6st with
            users := users2,
            rate_limits := (check_rate_limit c6st.rate_limits "carol" 50).2,
            audit_logs := c6st.audit_logs ++
              [{ event_type := "login_blocked", username := some "carol",
                 client_ip := none, user_agent := none,
                 details := some "rate_limited", success := false }] })) :=
  C6_lockout_short_circuits c6st "carol" "hunter2" 50 none none (by rfl)

/-! ### Claim C7: audit-write failures never alter operation outcomes -/

/-- The part of the state the audit logger never touches. -/
def nonAudit (st : AuthState) : List UserRow × List SessionRow × RLState :=
  (st.users, st.sessions, st.rate_limits)

theorem nonAudit_log_event (auditOk : Bool) (st : AuthState)
    (ev : AuditEvent) : nonAudit (log_event auditOk st ev) = nonAudit st := by
  cases auditOk <;> rfl

/-- **C7.**  A failing audit write (`auditOk = false`, the caught exception
in `log_event`) never propagates: every audited operation returns the same
result and leaves users, sessions and rate limits identical to a run whose
audit write succeeds. -/
theorem C7_audit_failure_isolated :
    (∀ st username password now ip ua,
      (authenticate_user true st username password now ip ua).1 =
        (authenticate_user false st username password now ip ua).1 ∧
      nonAudit (authenticate_user true st username password now ip ua).2 =
        nonAudit (authenticate_user false st username password now ip ua).2) ∧
    (∀ st tok now,
      (validate_session true st tok now).1 =
        (validate_session false st tok now).1 ∧
      nonAudit (validate_session true st tok now).2 =
        nonAudit (validate_session false st tok now).2) ∧
    (∀ st tok,
      (logout_session true st tok).1 = (logout_session false st tok).1 ∧
      nonAudit (logout_session true st tok).2 =
        nonAudit (logout_session false st tok).2) ∧
    (∀ st uid token now ip ua remember,
      (create_session true st uid token now ip ua remember).1 =
        (create_session false st uid token now ip ua remember).1 ∧
      nonAudit (create_session true st uid token now ip ua remember).2 =
        nonAudit (create_session false st uid token now ip ua remember).2) ∧
    (∀ st uid cur new now fsalt ip,
      (change_password true st uid cur new now fsalt ip).1 =
        (change_password false st uid cur new now fsalt ip).1 ∧
      nonAudit (change_password true st uid cur new now fsalt ip).2 =
        nonAudit (change_password false st uid cur new now fsalt ip).2) := by
  refine ⟨?_, ?_, ?_, ?_, ?_⟩
  · intro st username password now ip ua
    simp only [authenticate_user]
    cases h1 : (check_rate_limit st.rate_limits username now).1.allowed with
    | false => simp [nonAudit_log_event]
    | true =>
      cases hf : List.find?
          (fun x => x.username == username || x.email == username)
          st.users with
      | none => simp [nonAudit_log_event]
      | some usr =>
        cases h2 : usr.is_active with
        | false => simp [h2, nonAudit_log_event]
        | true =>
          cases h3 : _verify_password password usr.password_hash usr.salt with
          | false => simp [h2, h3, nonAudit_log_event]
          | true => simp [h2, h3, nonAudit_log_event]
  · intro st tok now
    simp only [validate_session]
    by_cases he : tok = ""
    · simp [he]
    simp only [if_neg he]
    cases hf : List.find?
        (fun s => s.session_token == tok && s.is_active) st.sessions with
    | none => simp
    | some s =>
      cases hu : List.find? (fun x => x.id == s.user_id) st.users with
      | none => simp [hu]
      | some u =>
        by_cases hexp : s.expires_at < now
        · simp [hu, hexp, nonAudit_log_event]
        · simp [hu, hexp]
  · intro st tok
    simp only [logout_session]
    by_cases he : tok = ""
    · simp [he]
    simp only [if_neg he]
    cases hf : List.find?
        (fun s => s.session_token == tok && s.is_active) st.sessions with
    | none => simp
    | some s => simp [nonAudit_log_event]
  · intro st uid token now ip ua remember
    exact ⟨rfl, by simp [create_session, nonAudit_log_event]⟩
  · intro st uid cur new now fsalt ip
    simp only [change_password]
    by_cases hv : (validate_password new).valid
    swap
    · simp [hv]
    simp only [hv, Bool.not_true, Bool.false_eq_true, if_false]
    cases hf : List.find? (fun x => x.id == uid) st.users with
    | none => simp
    | some u =>
      cases h3 : _verify_password cur u.password_hash u.salt with
      | false => simp [hf, h3, nonAudit_log_event]
      | true => simp [hf, h3, nonAudit_log_event]

/-! ## SecurityMiddleware (middleware.py lines 18-160)

Each regex of the source is embedded as a decidable matchability predicate
over the (lowercased) content, faithful to Python `re.search` semantics:
`\w = [a-zA-Z0-9_]`, `\s` = ASCII whitespace including vertical tab and form
feed, and `.` does not match a newline (no DOTALL flag). -/

def isWordChar (c : Char) : Bool := c.isAlphanum || c == Char.ofNat 95

def isPySpace (c : Char) : Bool :=
  c == ' ' || c == '\t' || c == '\n' || c == '\r' ||
  c == Char.ofNat 11 || c == Char.ofNat 12

/-- The apostrophe character (U+0027). -/
def sqChar : Char := Char.ofNat 39

/-- `\bkw\b` anchored at the head of `l`, with `prev` the character before
that position. -/
def wordAt (kw l : List Char) (prev : Option Char) : Bool :=
  chPfx kw l &&
  (match prev with | none => true | some c => !isWordChar c) &&
  (match (l.drop kw.length).head? with
   | none => true
   | some c => !isWordChar c)

def hasWordAux (kw : List Char) (prev : Option Char) : List Char → Bool
  | [] => false
  | c :: cs => wordAt kw (c :: cs) prev || hasWordAux kw (some c) cs

/-- `re.search(r"\bkw\b", s)`. -/
def hasWord (s kw : String) : Bool := hasWordAux kw.data none s.data

/-- `\s+\d+\s*=\s*\d+` anchored at the head of `l`. -/
def numEqTail (l : List Char) : Bool :=
  let l1 := l.dropWhile isPySpace
  decide (l1.length < l.length) &&
  (let l2 := l1.dropWhile Char.isDigit
   decide (l2.length < l1.length) &&
   (match l2.dropWhile isPySpace with
    | c :: l4 =>
      c == '=' &&
      (match (l4.dropWhile isPySpace).head? with
       | some d => d.isDigit
       | none => false)
    | [] => false))

/-- `\b(or|and)\b\s+\d+\s*=\s*\d+` anchored at the head. -/
def orAndNumAt (l : List Char) (prev : Option Char) : Bool :=
  (match prev with | none => true | some c => !isWordChar c) &&
  ((chPfx "or".data l && numEqTail (l.drop 2)) ||
   (chPfx "and".data l && numEqTail (l.drop 3)))

def orAndNumAux (prev : Option Char) : List Char → Bool
  | [] => false
  | c :: cs => orAndNumAt (c :: cs) prev || orAndNumAux (some c) cs

def hasOrAndNum (s : String) : Bool := orAndNumAux none s.data

/-- `'\w+'\s*=\s*'\w+'` anchored at the head (the tail of the quoted
equality pattern after its `(or|and)\s+`). -/
def quotedEqTail (l : List Char) : Bool :=
  let l1 := l.dropWhile isPySpace
  decide (l1.length < l.length) &&
  (match l1 with
   | c :: l2 =>
     c == sqChar &&
     (let l3 := l2.dropWhile isWordChar
      decide (l3.length < l2.length) &&
      (match l3 with
       | d :: l4 =>
         d == sqChar &&
         (match l4.dropWhile isPySpace with
          | e :: l6 =>
            e == '=' &&
            (match l6.dropWhile isPySpace with
             | f :: l8 =>
               f == sqChar &&
               (let l9 := l8.dropWhile isWordChar
                decide (l9.length < l8.length) &&
                (match l9 with
                 | g :: _ => g == sqChar
                 | [] => false))
             | [] => false)
          | [] => false)
       | [] => false))
   | [] => false)

/-- `'\s*(or|and)\s+'\w+'\s*=\s*'\w+'` anchored at the head. -/
def quotedOrAndAt (l : List Char) : Bool :=
  match l with
  | c :: rest =>
    c == sqChar &&
    (let l1 := rest.dropWhile isPySpace
     ((chPfx "or".data l1 && quotedEqTail (l1.drop 2)) ||
      (chPfx "and".data l1 && quotedEqTail (l1.drop 3))))
  | [] => false

def quotedOrAndAux : List Char → Bool
  | [] => false
  | c :: cs => quotedOrAndAt (c :: cs) || quotedOrAndAux cs

def hasQuotedOrAnd (s : String) : Bool := quotedOrAndAux s.data

/-- middleware.py lines 23-28: the four SQL-injection patterns, in order. -/
def sql_injection_check (content : String) : Bool :=
  ["union", "select", "insert", "update", "delete", "drop", "create",
   "alter"].any (fun kw => hasWord content kw) ||
  ["--", "#", "/*", "*/"].any (fun sub => strHasSub content sub) ||
  hasOrAndNum content ||
  hasQuotedOrAnd content

/-- `cl` occurs later in `l` with no newline before it (Python `.` without
DOTALL followed by the literal `cl`, non-greedy). -/
def closeNoNl (cl : List Char) : List Char → Bool
  | [] => chPfx cl []
  | c :: cs => chPfx cl (c :: cs) || (!(c == '\n') && closeNoNl cl cs)

/-- `op[^>]*>.*?cl` anchored at the head of `l` (the `<script ...>` shape). -/
def tagPairAt (op cl l : List Char) : Bool :=
  chPfx op l &&
  (match (l.drop op.length).dropWhile (fun c => !(c == '>')) with
   | c :: rest => c == '>' && closeNoNl cl rest
   | [] => false)

def tagPairAux (op cl : List Char) : List Char → Bool
  | [] => false
  | c :: cs => tagPairAt op cl (c :: cs) || tagPairAux op cl cs

def hasTagPair (s op cl : String) : Bool := tagPairAux op.data cl.data s.data

/-- `on\w+\s*=` anchored at the head. -/
def onEventAt (l : List Char) : Bool :=
  chPfx "on".data l &&
  (let l1 := (l.drop 2).dropWhile isWordChar
   decide (l1.length < (l.drop 2).length) &&
   (match l1.dropWhile isPySpace with
    | c :: _ => c == '='
    | [] => false))

def onEventAux : List Char → Bool
  | [] => false
  | c :: cs => onEventAt (c :: cs) || onEventAux cs

def hasOnEvent (s : String) : Bool := onEventAux s.data

/-- middleware.py lines 30-37: the six XSS patterns, in order. -/
def xss_check (content : String) : Bool :=
  hasTagPair content "<script" "</script>" ||
  strHasSub content "javascript:" ||
  hasOnEvent content ||
  hasTagPair content "<iframe" "</iframe>" ||
  hasTagPair content "<object" "</object>" ||
  hasTagPair content "<embed" "</embed>"

/-- middleware.py lines 39-46. -/
def file_traversal_check (content : String) : Bool :=
  ["../", "..\\", "/etc/passwd", "/proc/", "\\windows\\",
   "\\system32\\"].any (fun sub => strHasSub content sub)

/-- `kw\s*\(` somewhere in the content. -/
def callPatAt (kw l : List Char) : Bool :=
  chPfx kw l &&
  (match (l.drop kw.length).dropWhile isPySpace with
   | c :: _ => c == '('
   | [] => false)

def callPatAux (kw : List Char) : List Char → Bool
  | [] => false
  | c :: cs => callPatAt kw (c :: cs) || callPatAux kw cs

def hasCallPat (s kw : String) : Bool := callPatAux kw.data s.data

/-- `op.*cl` with no newline in the gap, somewhere in the content. -/
def openCloseAux (op cl : List Char) : List Char → Bool
  | [] => false
  | c :: cs =>
    (chPfx op (c :: cs) && closeNoNl cl ((c :: cs).drop op.length)) ||
    openCloseAux op cl cs

def hasOpenClose (s op cl : String) : Bool := openCloseAux op.data cl.data s.data

/-- middleware.py lines 136-149: the common attack patterns, in order. -/
def code_injection_check (content : String) : Bool :=
  strHasSub content "<?php" ||
  ["eval", "system", "exec", "shell_exec", "passthru", "base64_decode",
   "gzinflate"].any (fun kw => hasCallPat content kw) ||
  strHasSub content "<!--#exec" ||
  hasOpenClose content "<%" "%>" ||
  hasOpenClose content "$\x7b" "\x7d" ||
  hasOpenClose content "\x7b\x7b" "\x7d\x7d"

/-- middleware.py lines 116-155: `_check_security_threats` lowercases the
content and tries the four pattern families in order, returning the first
matching category. -/
def _check_security_threats (content : String) : Option String :=
  let content_lower := strLower content
  if sql_injection_check content_lower then some "SQL Injection attempt"
  else if xss_check content_lower then some "XSS attempt"
  else if file_traversal_check content_lower then
    some "File traversal attempt"
  else if code_injection_check content_lower then
    some "Code injection attempt"
  else none

/-- middleware.py lines 49-58: the blocked user agents, `.*name.*` with
IGNORECASE, i.e. case-insensitive substring tests. -/
def blocked_user_agents : List String :=
  ["sqlmap", "nikto", "nessus", "masscan", "nmap", "w3af", "burp",
   "acunetix"]

inductive MwDecision where
  | allow
  | block (status : Nat) (message : String)
deriving DecidableEq, Repr

/-- middleware.py lines 62-110: `SecurityMiddleware.process_request`.  The
request body (`wsgi.input` of a POST/PUT, when UTF-8 decodable) is the
`body` parameter. -/
def process_request (method path query_string user_agent : String)
    (body : Option String) : MwDecision :=
  if blocked_user_agents.any
      (fun p => strHasSub (strLower user_agent) p) then
    .block 403 "Forbidden"
  else
    match _check_security_threats (path ++ "?" ++ query_string) with
    | some _ => .block 403 "Security threat detected"
    | none =>
      if method = "POST" ∨ method = "PUT" then
        match body with
        | some b =>
          match _check_security_threats b with
          | some _ => .block 403 "Security threat detected in request body"
          | none => .allow
        | none => .allow
      else .allow

/-- The query string `q=' OR 1=1--` of the scenario. -/
def c8query : String := "q=" ++ String.mk [sqChar] ++ " OR 1=1--"

/-- **C8.**  The request `/api/search?q=' OR 1=1--` is blocked with status
403 and the detected category is "SQL Injection attempt". -/
theorem C8_sql_injection_blocked :
    _check_security_threats ("/api/search" ++ "?" ++ c8query) =
      some "SQL Injection attempt" ∧
    process_request "GET" "/api/search" c8query "" none =
      .block 403 "Security threat detected" := by
  constructor <;> rfl
